import Mathlib

/-!
Verification of the smart-home multi-agent orchestration core
(`src/system_implementation/smart_home_langgraph.py`).

The Python module wires eight structurally identical device workers
(`clock_agent`, `calendar_agent`, `search_engine_agent`, `tv_display_agent`,
`fridge_agent`, `lighting_agent`, `thermostat_agent`, `audio_system_agent`)
and an orchestrator (`task_planner`) into a LangGraph state machine over a
`SmartHomeState` TypedDict.  Every worker activation evaluates three branches
in fixed order (inbound collaboration, resume-after-collaboration, new task)
and returns a `Command(update=..., goto=...)`; the LLM calls are the external
Decision Oracle and are modelled here as explicit parameters of each step.

Modelling choices, each matching the source:
* the per-device TypedDict slots `{d}_response` / `{d}_result` are modelled
  as two maps `String → Option String` keyed by the device string, since the
  Python code reads and writes them through f-strings on the device name;
* the `collaboration_request` dict is `{}` or a full triple in the source, so
  it is an `Option CollaborationRequest` here (falsy `{}` ↦ `none`); the same
  for `pending_task` (`None` ↦ `none`);
* a worker function that falls off its if/elif chain returns Python `None`;
  the embedding returns `Option Command` with `none` for that case;
* `task_planner` can raise an uncaught `IndexError` when the planning oracle
  returns an empty `task_queue` list (it reads `new_task_queue[0]`
  unconditionally), so its embedding returns `Except String Command`;
* Python list slicing `task_queue[1:]` is `List.tail` (both give `[]` on an
  empty list).
-/

namespace SmartHome

/-- A queue entry `{device, action}` as produced by the planner. -/
structure Task where
  device : String
  action : String
deriving DecidableEq, Repr

/-- The global `collaboration_request` triple written by a requesting worker. -/
structure CollaborationRequest where
  requester : String
  target : String
  request : String
deriving DecidableEq, Repr

/-- The `pending_task` dict recorded by a worker that issued a collaboration. -/
structure PendingTask where
  device : String
  action : String
  waiting_for : String
deriving DecidableEq, Repr

/-- The `type` field of a history entry. -/
inductive EntryType where
  | collaboration_request
  | collaboration_response
  | task_completion
deriving DecidableEq, Repr

/-- The `result` field of a history entry: a plain string for responses and
completions, or the `{target, request}` dict stored by a `collaboration_request`
entry. -/
inductive EntryResult where
  | text (s : String)
  | redirect (target : String) (request : String)
deriving DecidableEq, Repr

/-- One `task_history` record `{device, type, action_taken, result}`. -/
structure HistoryEntry where
  device : String
  type : EntryType
  action_taken : String
  result : EntryResult
deriving DecidableEq, Repr

/-- The orchestration-relevant fields of the `SmartHomeState` TypedDict.
`responses d` is the `{d}_response` slot and `results d` the `{d}_result`
slot. -/
structure SmartHomeState where
  original_user_input : String
  task_queue : List Task
  collaboration_request : Option CollaborationRequest
  pending_task : Option PendingTask
  task_history : List HistoryEntry
  responses : String → Option String
  results : String → Option String

/-- The `{target, request}` dict inside a decide-oracle answer. -/
structure CollabAsk where
  target : String
  request : String
deriving DecidableEq, Repr

/-- Outcome of the branch-3 Decision Oracle call
(`{"response": ..., "collaboration_request": ...}`).  `collab = none` covers
the falsy cases of the source check
`result.get("collaboration_request") and result["collaboration_request"].get("target")`. -/
structure DecideOutcome where
  response : String
  collab : Option CollabAsk
deriving DecidableEq, Repr

/-- The three possible Decision Oracle answers a single worker activation may
consume, one per branch (only the branch that fires reads its field). -/
structure WorkerOracle where
  answerCollaboration : String
  resume : String
  decide : DecideOutcome
deriving DecidableEq, Repr

/-- A LangGraph `Command`: the updated state plus the `goto` node name
(`none` models a `Command` without `goto`, which follows the static
`task_planner → END` edge). -/
structure Command where
  state : SmartHomeState
  goto : Option String

/-- Pointwise update of a slot map, mirroring a TypedDict write through an
f-string key. -/
def update_slot (f : String → Option String) (k : String) (v : Option String) :
    String → Option String :=
  fun d => if d = k then v else f d

/-- Branch-1 guard: `collaboration_request and collaboration_request.get("target") == id`. -/
def targets : Option CollaborationRequest → String → Bool
  | some c, id => c.target == id
  | none, _ => false

/-- Branch-2 guard: `pending_task and pending_task.get("device") == id`. -/
def pends : Option PendingTask → String → Bool
  | some p, id => p.device == id
  | none, _ => false

/-- Branch-3 guard: `task_queue and task_queue[0].get("device") == id`. -/
def headIs : List Task → String → Bool
  | t :: _, id => t.device == id
  | [], _ => false

/-- `collaboration_request.get("requester")` under the branch-1 guard. -/
def requesterOf : Option CollaborationRequest → String
  | some c => c.requester
  | none => ""

/-- `collaboration_request.get("request")` under the branch-1 guard. -/
def requestOf : Option CollaborationRequest → String
  | some c => c.request
  | none => ""

/-- `pending_task.get("waiting_for")` under the branch-2 guard. -/
def waitingForOf : Option PendingTask → String
  | some p => p.waiting_for
  | none => ""

/-- `pending_task.get("action")` under the branch-2 guard. -/
def pendingActionOf : Option PendingTask → String
  | some p => p.action
  | none => ""

/-- `task_queue[0].get("action")` under the branch-3 guard. -/
def headAction : List Task → String
  | t :: _ => t.action
  | [] => ""

/-- Per-device instantiation data: `identity` is the catalog name used in all
guards, slot keys, `requester` and `pending_task` fields and `goto` targets;
`histName` is the string written into the `device` field of the history
entries (the source writes `"audio system"` there for the audio system agent
and the identity itself for the other seven). -/
structure AgentConfig where
  identity : String
  histName : String

/-- The worker body shared verbatim (up to the identity strings) by the eight
`*_agent` functions of the source: branch 1 answers an inbound collaboration
request, branch 2 resumes a pending task with the collaborator's response,
branch 3 starts the head task of the queue and either completes it or issues
a collaboration request; if no guard holds the Python function falls through
and returns `None`. -/
def agent_step (cfg : AgentConfig) (o : WorkerOracle) (s : SmartHomeState) :
    Option Command :=
  if targets s.collaboration_request cfg.identity then
    -- Branch 1: respond to a collaboration request from another agent.
    let requester := requesterOf s.collaboration_request
    let request := requestOf s.collaboration_request
    let response := o.answerCollaboration
    let new_entry : HistoryEntry :=
      { device := cfg.histName, type := .collaboration_response,
        action_taken := request, result := .text response }
    some
      { state :=
          { s with
            responses := update_slot s.responses cfg.identity (some response),
            collaboration_request := none,
            task_history := s.task_history ++ [new_entry] },
        goto := some (requester ++ "_agent") }
  else if pends s.pending_task cfg.identity then
    -- Branch 2: resume the suspended task using the collaborator's response.
    let collaborator := waitingForOf s.pending_task
    let original_action := pendingActionOf s.pending_task
    let result := o.resume
    let new_entry : HistoryEntry :=
      { device := cfg.histName, type := .task_completion,
        action_taken := original_action, result := .text result }
    some
      { state :=
          { s with
            results := update_slot s.results cfg.identity (some result),
            task_queue := s.task_queue.tail,
            pending_task := none,
            collaboration_request := none,
            responses := update_slot s.responses collaborator none,
            task_history := s.task_history ++ [new_entry] },
        goto := some "task_planner" }
  else if headIs s.task_queue cfg.identity then
    -- Branch 3: handle the new task at the head of the queue.
    let action := headAction s.task_queue
    match o.decide.collab with
    | some c =>
      let new_entry : HistoryEntry :=
        { device := cfg.histName, type := .collaboration_request,
          action_taken := action, result := .redirect c.target c.request }
      some
        { state :=
            { s with
              collaboration_request :=
                some { requester := cfg.identity, target := c.target,
                       request := c.request },
              pending_task :=
                some { device := cfg.identity, action := action,
                       waiting_for := c.target },
              task_history := s.task_history ++ [new_entry] },
          goto := some (c.target ++ "_agent") }
    | none =>
      let result := o.decide.response
      let new_entry : HistoryEntry :=
        { device := cfg.histName, type := .task_completion,
          action_taken := action, result := .text result }
      some
        { state :=
            { s with
              results := update_slot s.results cfg.identity (some result),
              task_queue := s.task_queue.tail,
              task_history := s.task_history ++ [new_entry] },
          goto := some "task_planner" }
  else
    none

/-- `clock_agent` of the source. -/
def clock_agent : WorkerOracle → SmartHomeState → Option Command :=
  agent_step { identity := "clock", histName := "clock" }

/-- `calendar_agent` of the source. -/
def calendar_agent : WorkerOracle → SmartHomeState → Option Command :=
  agent_step { identity := "calendar", histName := "calendar" }

/-- `search_engine_agent` of the source. -/
def search_engine_agent : WorkerOracle → SmartHomeState → Option Command :=
  agent_step { identity := "search_engine", histName := "search_engine" }

/-- `tv_display_agent` of the source. -/
def tv_display_agent : WorkerOracle → SmartHomeState → Option Command :=
  agent_step { identity := "tv_display", histName := "tv_display" }

/-- `fridge_agent` of the source. -/
def fridge_agent : WorkerOracle → SmartHomeState → Option Command :=
  agent_step { identity := "fridge", histName := "fridge" }

/-- `lighting_agent` of the source. -/
def lighting_agent : WorkerOracle → SmartHomeState → Option Command :=
  agent_step { identity := "lighting", histName := "lighting" }

/-- `thermostat_agent` of the source. -/
def thermostat_agent : WorkerOracle → SmartHomeState → Option Command :=
  agent_step { identity := "thermostat", histName := "thermostat" }

/-- `audio_system_agent` of the source: its guards, slot keys, `requester` and
`pending_task` device all use `"audio_system"`, but the `device` field of its
three history entries is written as `"audio system"` (lines 2147, 2204, 2293,
2321 of the source). -/
def audio_system_agent : WorkerOracle → SmartHomeState → Option Command :=
  agent_step { identity := "audio_system", histName := "audio system" }

/-- `task_planner` of the source, with the planning-oracle output passed in as
`plan` (the list the LLM call returns under the key `"task_queue"`).  The
resume branch dispatches the queue head without consulting `plan`; the plan
branch reads `new_task_queue[0]` unconditionally, which raises an uncaught
`IndexError` when `plan` is empty; the terminal branch returns a `Command`
without `goto`, which follows the `task_planner → END` edge. -/
def task_planner (plan : List Task) (s : SmartHomeState) :
    Except String Command :=
  match s.task_queue with
  | current :: rest =>
    Except.ok
      { state := { s with task_queue := current :: rest },
        goto := some (current.device ++ "_agent") }
  | [] =>
    if s.original_user_input ≠ "" then
      match plan with
      | [] => Except.error "IndexError: list index out of range"
      | t :: ts =>
        Except.ok
          { state := { s with task_queue := t :: ts, original_user_input := "" },
            goto := some (t.device ++ "_agent") }
    else
      Except.ok { state := { s with task_queue := [] }, goto := none }

/-- All slots empty. -/
def emptySlots : String → Option String := fun _ => none

/-- A state with every orchestration field empty, as `run_benchmark.py`
initialises a turn. -/
def baseState : SmartHomeState :=
  { original_user_input := ""
    task_queue := []
    collaboration_request := none
    pending_task := none
    task_history := []
    responses := emptySlots
    results := emptySlots }

/-- The `Command` produced by branch 1 of a worker. -/
def branch1Cmd (cfg : AgentConfig) (o : WorkerOracle) (s : SmartHomeState) :
    Command :=
  { state :=
      { s with
        responses :=
          update_slot s.responses cfg.identity (some o.answerCollaboration),
        collaboration_request := none,
        task_history := s.task_history ++
          [{ device := cfg.histName, type := .collaboration_response,
             action_taken := requestOf s.collaboration_request,
             result := .text o.answerCollaboration }] },
    goto := some (requesterOf s.collaboration_request ++ "_agent") }

/-- The `Command` produced by branch 2 of a worker. -/
def branch2Cmd (cfg : AgentConfig) (o : WorkerOracle) (s : SmartHomeState) :
    Command :=
  { state :=
      { s with
        results := update_slot s.results cfg.identity (some o.resume),
        task_queue := s.task_queue.tail,
        pending_task := none,
        collaboration_request := none,
        responses := update_slot s.responses (waitingForOf s.pending_task) none,
        task_history := s.task_history ++
          [{ device := cfg.histName, type := .task_completion,
             action_taken := pendingActionOf s.pending_task,
             result := .text o.resume }] },
    goto := some "task_planner" }

/-- The `Command` produced by branch 3 when the oracle asks for
collaboration `c`. -/
def branch3CollabCmd (cfg : AgentConfig) (s : SmartHomeState) (c : CollabAsk) :
    Command :=
  { state :=
      { s with
        collaboration_request :=
          some { requester := cfg.identity, target := c.target,
                 request := c.request },
        pending_task :=
          some { device := cfg.identity, action := headAction s.task_queue,
                 waiting_for := c.target },
        task_history := s.task_history ++
          [{ device := cfg.histName, type := .collaboration_request,
             action_taken := headAction s.task_queue,
             result := .redirect c.target c.request }] },
    goto := some (c.target ++ "_agent") }

/-- The `Command` produced by branch 3 when the oracle answers directly. -/
def branch3DirectCmd (cfg : AgentConfig) (o : WorkerOracle)
    (s : SmartHomeState) : Command :=
  { state :=
      { s with
        results := update_slot s.results cfg.identity (some o.decide.response),
        task_queue := s.task_queue.tail,
        task_history := s.task_history ++
          [{ device := cfg.histName, type := .task_completion,
             action_taken := headAction s.task_queue,
             result := .text o.decide.response }] },
    goto := some "task_planner" }

/-- Unfolding equation for branch 1 of a worker. -/
lemma agent_step_branch1 (cfg : AgentConfig) (o : WorkerOracle)
    (s : SmartHomeState)
    (h : targets s.collaboration_request cfg.identity = true) :
    agent_step cfg o s = some (branch1Cmd cfg o s) := by
  simp [agent_step, branch1Cmd, h]

/-- Unfolding equation for branch 2 of a worker. -/
lemma agent_step_branch2 (cfg : AgentConfig) (o : WorkerOracle)
    (s : SmartHomeState)
    (h1 : targets s.collaboration_request cfg.identity = false)
    (h2 : pends s.pending_task cfg.identity = true) :
    agent_step cfg o s = some (branch2Cmd cfg o s) := by
  simp [agent_step, branch2Cmd, h1, h2]

/-- Unfolding equation for branch 3 of a worker when the Decision Oracle
requests a collaboration. -/
lemma agent_step_branch3_collab (cfg : AgentConfig) (o : WorkerOracle)
    (s : SmartHomeState) (c : CollabAsk)
    (h1 : targets s.collaboration_request cfg.identity = false)
    (h2 : pends s.pending_task cfg.identity = false)
    (h3 : headIs s.task_queue cfg.identity = true)
    (hc : o.decide.collab = some c) :
    agent_step cfg o s = some (branch3CollabCmd cfg s c) := by
  simp [agent_step, branch3CollabCmd, h1, h2, h3, hc]

/-- Unfolding equation for branch 3 of a worker when the Decision Oracle
returns a direct result. -/
lemma agent_step_branch3_direct (cfg : AgentConfig) (o : WorkerOracle)
    (s : SmartHomeState)
    (h1 : targets s.collaboration_request cfg.identity = false)
    (h2 : pends s.pending_task cfg.identity = false)
    (h3 : headIs s.task_queue cfg.identity = true)
    (hc : o.decide.collab = none) :
    agent_step cfg o s = some (branch3DirectCmd cfg o s) := by
  simp [agent_step, branch3DirectCmd, h1, h2, h3, hc]

/-- When no guard holds, the worker function falls through and returns
`None`. -/
lemma agent_step_no_branch (cfg : AgentConfig) (o : WorkerOracle)
    (s : SmartHomeState)
    (h1 : targets s.collaboration_request cfg.identity = false)
    (h2 : pends s.pending_task cfg.identity = false)
    (h3 : headIs s.task_queue cfg.identity = false) :
    agent_step cfg o s = none := by
  simp [agent_step, h1, h2, h3]

/-- Every successful worker activation is exactly one of the four branch
outcomes, together with the guard values that selected it. -/
lemma agent_step_cases (cfg : AgentConfig) (o : WorkerOracle)
    (s : SmartHomeState) (cmd : Command)
    (h : agent_step cfg o s = some cmd) :
    (targets s.collaboration_request cfg.identity = true ∧
      cmd = branch1Cmd cfg o s) ∨
    (targets s.collaboration_request cfg.identity = false ∧
      pends s.pending_task cfg.identity = true ∧
      cmd = branch2Cmd cfg o s) ∨
    (targets s.collaboration_request cfg.identity = false ∧
      pends s.pending_task cfg.identity = false ∧
      headIs s.task_queue cfg.identity = true ∧
      ∃ c, o.decide.collab = some c ∧ cmd = branch3CollabCmd cfg s c) ∨
    (targets s.collaboration_request cfg.identity = false ∧
      pends s.pending_task cfg.identity = false ∧
      headIs s.task_queue cfg.identity = true ∧
      o.decide.collab = none ∧ cmd = branch3DirectCmd cfg o s) := by
  cases ht : targets s.collaboration_request cfg.identity with
  | true =>
    rw [agent_step_branch1 cfg o s ht] at h
    exact Or.inl ⟨rfl, (Option.some.inj h).symm⟩
  | false =>
    cases hp : pends s.pending_task cfg.identity with
    | true =>
      rw [agent_step_branch2 cfg o s ht hp] at h
      exact Or.inr (Or.inl ⟨rfl, rfl, (Option.some.inj h).symm⟩)
    | false =>
      cases hh : headIs s.task_queue cfg.identity with
      | true =>
        cases hc : o.decide.collab with
        | some c =>
          rw [agent_step_branch3_collab cfg o s c ht hp hh hc] at h
          exact Or.inr (Or.inr (Or.inl
            ⟨rfl, rfl, rfl, c, rfl, (Option.some.inj h).symm⟩))
        | none =>
          rw [agent_step_branch3_direct cfg o s ht hp hh hc] at h
          exact Or.inr (Or.inr (Or.inr
            ⟨rfl, rfl, rfl, rfl, (Option.some.inj h).symm⟩))
      | false =>
        rw [agent_step_no_branch cfg o s ht hp hh] at h
        exact absurd h (by simp)

/-- If the branch-2 guard holds, a pending task is present. -/
lemma pends_isSome {pt : Option PendingTask} {id : String}
    (h : pends pt id = true) : pt.isSome := by
  cases pt with
  | some p => rfl
  | none => simp [pends] at h

/-- If the branch-3 guard holds, the queue is non-empty. -/
lemma headIs_ne_nil {q : List Task} {id : String}
    (h : headIs q id = true) : q ≠ [] := by
  cases q with
  | cons t ts => simp
  | nil => simp [headIs] at h

/-- Cancelling a common left factor of two one-element extensions. -/
lemma append_singleton_inj {α : Type} {l : List α} {a b : α}
    (h : l ++ [a] = l ++ [b]) : a = b := by
  have hx := List.append_cancel_left h
  simpa using hx

/-- A worker's oracle used in the concrete witnesses: branch 3 answers
directly. -/
def oDirect : WorkerOracle :=
  { answerCollaboration := "ok"
    resume := "done"
    decide := { response := "Alarm set for 7:00 AM", collab := none } }

/-- A turn state whose queue head is a clock task. -/
def clockTaskState : SmartHomeState :=
  { baseState with
    task_queue := [{ device := "clock", action := "set alarm at 7am" }] }

/-- The clock device configuration. -/
def clockCfg : AgentConfig := { identity := "clock", histName := "clock" }

/-- The search-engine device configuration. -/
def seCfg : AgentConfig :=
  { identity := "search_engine", histName := "search_engine" }

/-- A state carrying an inbound collaboration request addressed to the
clock. -/
def inboundClockState : SmartHomeState :=
  { baseState with
    collaboration_request :=
      some { requester := "calendar", target := "clock",
             request := "what time is it now?" } }

/-- A state whose queue head is a search-engine task. -/
def seTaskState : SmartHomeState :=
  { baseState with
    task_queue := [{ device := "search_engine", action := "find recipes" }] }

/-- An oracle whose branch-3 decision asks the fridge for collaboration. -/
def oAskFridge : WorkerOracle :=
  { answerCollaboration := ""
    resume := ""
    decide := { response := "",
                collab := some { target := "fridge",
                                 request := "check the fridge" } } }

/-- C4: every successful worker activation (any of the three branches) appends
exactly one `HistoryEntry` at the end of `task_history`; the incoming history
is a prefix of the outgoing one and no entry is mutated or removed. -/
theorem history_append_only (cfg : AgentConfig) (o : WorkerOracle)
    (s : SmartHomeState) (cmd : Command)
    (h : agent_step cfg o s = some cmd) :
    ∃ e, cmd.state.task_history = s.task_history ++ [e] ∧
      cmd.state.task_history.length = s.task_history.length + 1 ∧
      cmd.state.task_history.take s.task_history.length = s.task_history := by
  rcases agent_step_cases cfg o s cmd h with
    ⟨ht, rfl⟩ | ⟨ht, hp, rfl⟩ | ⟨ht, hp, hh, c, hc, rfl⟩ | ⟨ht, hp, hh, hc, rfl⟩
  · exact ⟨_, rfl, by simp [branch1Cmd], by simp [branch1Cmd, List.take_left]⟩
  · exact ⟨_, rfl, by simp [branch2Cmd], by simp [branch2Cmd, List.take_left]⟩
  · exact ⟨_, rfl, by simp [branch3CollabCmd],
      by simp [branch3CollabCmd, List.take_left]⟩
  · exact ⟨_, rfl, by simp [branch3DirectCmd],
      by simp [branch3DirectCmd, List.take_left]⟩

/-- C4 witness: the clock worker handling a new alarm task appends exactly one
history entry. -/
theorem history_append_only_witness :
    agent_step clockCfg oDirect clockTaskState =
      some (branch3DirectCmd clockCfg oDirect clockTaskState) ∧
    ∃ e, (branch3DirectCmd clockCfg oDirect clockTaskState).state.task_history =
        clockTaskState.task_history ++ [e] ∧
      (branch3DirectCmd clockCfg oDirect clockTaskState).state.task_history.length =
        clockTaskState.task_history.length + 1 ∧
      (branch3DirectCmd clockCfg oDirect clockTaskState).state.task_history.take
        clockTaskState.task_history.length = clockTaskState.task_history :=
  ⟨rfl, history_append_only clockCfg oDirect clockTaskState _ rfl⟩

/-- C3: a worker answering an inbound collaboration request (branch 1) clears
the `CollaborationRequest`, leaves `pending_task` untouched (creates neither),
and only writes its response slot; a worker resuming a pending task (branch 2)
always finalizes a result (writes its result slot and appends a
`task_completion` entry) and leaves no `CollaborationRequest` or `PendingTask`
behind — so a collaboration exchange never extends to a third worker. -/
theorem one_hop_collaboration (cfg : AgentConfig) (o : WorkerOracle)
    (s : SmartHomeState) (cmd : Command)
    (h : agent_step cfg o s = some cmd) :
    (targets s.collaboration_request cfg.identity = true →
      cmd.state.collaboration_request = none ∧
      cmd.state.pending_task = s.pending_task ∧
      cmd.state.responses cfg.identity = some o.answerCollaboration ∧
      cmd.state.task_history = s.task_history ++
        [{ device := cfg.histName, type := .collaboration_response,
           action_taken := requestOf s.collaboration_request,
           result := .text o.answerCollaboration }]) ∧
    (targets s.collaboration_request cfg.identity = false →
      pends s.pending_task cfg.identity = true →
      cmd.state.collaboration_request = none ∧
      cmd.state.pending_task = none ∧
      cmd.state.results cfg.identity = some o.resume ∧
      cmd.state.task_history = s.task_history ++
        [{ device := cfg.histName, type := .task_completion,
           action_taken := pendingActionOf s.pending_task,
           result := .text o.resume }]) := by
  rcases agent_step_cases cfg o s cmd h with
    ⟨ht, rfl⟩ | ⟨ht, hp, rfl⟩ | ⟨ht, hp, hh, c, hc, rfl⟩ | ⟨ht, hp, hh, hc, rfl⟩ <;>
    simp [ht, branch1Cmd, branch2Cmd, branch3CollabCmd, branch3DirectCmd,
      update_slot] <;> simp_all

/-- C3 witness: the clock worker answering an inbound collaboration request
from the calendar worker. -/
theorem one_hop_collaboration_witness :
    agent_step clockCfg oDirect inboundClockState =
      some (branch1Cmd clockCfg oDirect inboundClockState) ∧
    targets inboundClockState.collaboration_request "clock" = true ∧
    (branch1Cmd clockCfg oDirect
      inboundClockState).state.collaboration_request = none :=
  ⟨rfl, rfl,
    ((one_hop_collaboration clockCfg oDirect inboundClockState
      (branch1Cmd clockCfg oDirect inboundClockState) rfl).1 rfl).1⟩

/-- C1: the single `collaboration_request` slot changes to an active (non-`none`)
value only in a worker's new-task branch — reachable only when no request
targets that worker, it has no pending task, and it owns the queue head — and
the targeted worker clears the slot in the same activation in which it writes
its collaboration response.  Together with the state holding exactly one such
slot, at most one collaboration request is active at any instant. -/
theorem single_outstanding_request (cfg : AgentConfig) (o : WorkerOracle)
    (s : SmartHomeState) (cmd : Command)
    (h : agent_step cfg o s = some cmd) :
    ((cmd.state.collaboration_request ≠ s.collaboration_request ∧
        cmd.state.collaboration_request.isSome) →
      targets s.collaboration_request cfg.identity = false ∧
      pends s.pending_task cfg.identity = false ∧
      headIs s.task_queue cfg.identity = true) ∧
    (targets s.collaboration_request cfg.identity = true →
      cmd.state.collaboration_request = none ∧
      cmd.state.responses cfg.identity = some o.answerCollaboration) := by
  rcases agent_step_cases cfg o s cmd h with
    ⟨ht, rfl⟩ | ⟨ht, hp, rfl⟩ | ⟨ht, hp, hh, c, hc, rfl⟩ | ⟨ht, hp, hh, hc, rfl⟩ <;>
    · simp [ht, branch1Cmd, branch2Cmd, branch3CollabCmd, branch3DirectCmd,
        update_slot]
      try simp_all

/-- C1 witness: the search-engine worker starting the recipe task creates a
request toward the fridge only from the new-task branch. -/
theorem single_outstanding_request_witness :
    agent_step seCfg oAskFridge seTaskState =
      some (branch3CollabCmd seCfg seTaskState
        { target := "fridge", request := "check the fridge" }) ∧
    (targets seTaskState.collaboration_request "search_engine" = false ∧
      pends seTaskState.pending_task "search_engine" = false ∧
      headIs seTaskState.task_queue "search_engine" = true) :=
  ⟨rfl,
    (single_outstanding_request seCfg oAskFridge seTaskState
      (branch3CollabCmd seCfg seTaskState
        { target := "fridge", request := "check the fridge" }) rfl).1
      (by decide)⟩

/-- C2: assuming the turn invariant that a pending task implies a non-empty
queue (the only way `pending_task` is set is branch 3, whose guard requires a
non-empty queue that the collaboration path does not pop), a worker activation
that appends a `task_completion` entry pops exactly the queue head (length
drops by exactly one), and one that appends a `collaboration_request` or
`collaboration_response` entry leaves the queue unchanged. -/
theorem queue_monotonicity (cfg : AgentConfig) (o : WorkerOracle)
    (s : SmartHomeState) (cmd : Command) (e : HistoryEntry)
    (hinv : s.pending_task.isSome → s.task_queue ≠ [])
    (h : agent_step cfg o s = some cmd)
    (he : cmd.state.task_history = s.task_history ++ [e]) :
    (e.type = .task_completion →
      cmd.state.task_queue = s.task_queue.tail ∧
      cmd.state.task_queue.length + 1 = s.task_queue.length) ∧
    ((e.type = .collaboration_request ∨ e.type = .collaboration_response) →
      cmd.state.task_queue = s.task_queue) := by
  rcases agent_step_cases cfg o s cmd h with
    ⟨ht, rfl⟩ | ⟨ht, hp, rfl⟩ | ⟨ht, hp, hh, c, hc, rfl⟩ | ⟨ht, hp, hh, hc, rfl⟩
  · -- Branch 1 appends a collaboration_response and leaves the queue alone.
    obtain rfl := append_singleton_inj he
    refine ⟨fun htc => ?_, fun _ => rfl⟩
    simp at htc
  · -- Branch 2 appends a task_completion and pops the head.
    obtain rfl := append_singleton_inj he
    have hq : s.task_queue ≠ [] := hinv (pends_isSome hp)
    refine ⟨fun _ => ?_, fun hco => ?_⟩
    · cases hq' : s.task_queue with
      | nil => exact absurd hq' hq
      | cons t ts => simp [branch2Cmd, hq']
    · simp at hco
  · -- Branch 3, collaboration path: queue untouched.
    obtain rfl := append_singleton_inj he
    refine ⟨fun htc => ?_, fun _ => rfl⟩
    simp at htc
  · -- Branch 3, direct completion: pops the head (guard gives non-emptiness).
    obtain rfl := append_singleton_inj he
    refine ⟨fun _ => ?_, fun hco => ?_⟩
    · cases hq' : s.task_queue with
      | nil => exact absurd hq' (headIs_ne_nil hh)
      | cons t ts => simp [branch3DirectCmd, hq']
    · simp at hco

/-- C2 witness: the clock worker completing its queued alarm task pops exactly
the head of a one-element queue. -/
theorem queue_monotonicity_witness :
    (clockTaskState.pending_task.isSome → clockTaskState.task_queue ≠ []) ∧
    agent_step clockCfg oDirect clockTaskState =
      some (branch3DirectCmd clockCfg oDirect clockTaskState) ∧
    ((branch3DirectCmd clockCfg oDirect clockTaskState).state.task_queue =
        clockTaskState.task_queue.tail ∧
      (branch3DirectCmd clockCfg oDirect
        clockTaskState).state.task_queue.length + 1 =
        clockTaskState.task_queue.length) :=
  ⟨by decide, rfl,
    (queue_monotonicity clockCfg oDirect clockTaskState _ _
      (by decide) rfl rfl).1 rfl⟩

/-- C5: a worker that receives control while none of its three branch guards
holds (no inbound request targets it, it has no pending task, it does not own
the queue head) falls off the end of its if/elif chain and returns Python
`None`: no internal orchestration error is raised, no diagnostic is produced,
and the state is left untouched — contrary to the stated failure policy.  The
failing input is the clock worker activated on an empty turn state. -/
theorem no_branch_silent_none : clock_agent oDirect baseState = none := rfl

/-- A turn state in which the search engine has a pending recipe task waiting
on the fridge, whose response slot is filled. -/
def resumeState : SmartHomeState :=
  { baseState with
    task_queue := [{ device := "search_engine", action := "find recipes" }]
    pending_task :=
      some { device := "search_engine", action := "find recipes",
             waiting_for := "fridge" }
    responses := update_slot emptySlots "fridge" (some "milk, eggs, rice") }

/-- The oracle answer consumed when the search engine resumes. -/
def oResume : WorkerOracle :=
  { answerCollaboration := ""
    resume := "Recipe: egg fried rice"
    decide := { response := "", collab := none } }

/-- C6: a worker resuming its pending task (branch 2) writes exactly its own
result slot, pops the queue head, clears `pending_task` and
`collaboration_request`, consumes (clears) the collaborator's response slot,
appends one `task_completion` entry, transfers control to the orchestrator,
and leaves every other field — in particular every other device's response
and result slot and the original user input — unchanged. -/
theorem resume_frame_effects (cfg : AgentConfig) (o : WorkerOracle)
    (s : SmartHomeState) (p : PendingTask)
    (ht : targets s.collaboration_request cfg.identity = false)
    (hp : s.pending_task = some p)
    (hd : p.device = cfg.identity) :
    agent_step cfg o s = some (branch2Cmd cfg o s) ∧
    (branch2Cmd cfg o s).state.results cfg.identity = some o.resume ∧
    (branch2Cmd cfg o s).state.task_queue = s.task_queue.tail ∧
    (branch2Cmd cfg o s).state.pending_task = none ∧
    (branch2Cmd cfg o s).state.collaboration_request = none ∧
    (branch2Cmd cfg o s).state.responses p.waiting_for = none ∧
    (branch2Cmd cfg o s).state.task_history = s.task_history ++
      [{ device := cfg.histName, type := .task_completion,
         action_taken := p.action, result := .text o.resume }] ∧
    (branch2Cmd cfg o s).goto = some "task_planner" ∧
    (branch2Cmd cfg o s).state.original_user_input = s.original_user_input ∧
    (∀ d, d ≠ p.waiting_for →
      (branch2Cmd cfg o s).state.responses d = s.responses d) ∧
    (∀ d, d ≠ cfg.identity →
      (branch2Cmd cfg o s).state.results d = s.results d) := by
  have hpend : pends s.pending_task cfg.identity = true := by
    simp [pends, hp, hd]
  refine ⟨agent_step_branch2 cfg o s ht hpend, ?_, rfl, rfl, rfl, ?_, ?_, rfl,
    rfl, ?_, ?_⟩
  · simp [branch2Cmd, update_slot]
  · simp [branch2Cmd, update_slot, hp, waitingForOf]
  · simp [branch2Cmd, hp, pendingActionOf]
  · intro d hne
    simp [branch2Cmd, update_slot, hp, waitingForOf, hne]
  · intro d hne
    simp [branch2Cmd, update_slot, hne]

/-- C6 witness: the search engine resuming its recipe task after the fridge
answered. -/
theorem resume_frame_effects_witness :
    (targets resumeState.collaboration_request seCfg.identity = false ∧
      resumeState.pending_task =
        some { device := "search_engine", action := "find recipes",
               waiting_for := "fridge" }) ∧
    agent_step seCfg oResume resumeState =
      some (branch2Cmd seCfg oResume resumeState) ∧
    (branch2Cmd seCfg oResume resumeState).state.responses "fridge" = none ∧
    (branch2Cmd seCfg oResume resumeState).state.results "search_engine" =
      some "Recipe: egg fried rice" :=
  ⟨⟨rfl, rfl⟩,
    (resume_frame_effects seCfg oResume resumeState
      { device := "search_engine", action := "find recipes",
        waiting_for := "fridge" } rfl rfl rfl).1,
    (resume_frame_effects seCfg oResume resumeState
      { device := "search_engine", action := "find recipes",
        waiting_for := "fridge" } rfl rfl rfl).2.2.2.2.2.1,
    (resume_frame_effects seCfg oResume resumeState
      { device := "search_engine", action := "find recipes",
        waiting_for := "fridge" } rfl rfl rfl).2.1⟩

/-- C7: `task_planner` has exactly three mutually exclusive triggers checked
in order.  Resume: a non-empty queue dispatches the head task's worker with
the state otherwise untouched, for every possible oracle plan (no oracle
call).  Plan: an empty queue with a fresh utterance installs the oracle's
plan wholesale, clears the fresh-utterance marker and dispatches the new
head.  Terminal: an empty queue and no fresh utterance ends the turn (no
`goto`, following the edge to END) with no history change, for every possible
oracle plan. -/
theorem planner_three_triggers (s : SmartHomeState) :
    (∀ t rest, s.task_queue = t :: rest → ∀ plan,
      task_planner plan s =
        Except.ok { state := { s with task_queue := t :: rest },
                    goto := some (t.device ++ "_agent") }) ∧
    (s.task_queue = [] → s.original_user_input ≠ "" → ∀ t ts,
      task_planner (t :: ts) s =
        Except.ok
          { state := { s with task_queue := t :: ts, original_user_input := "" },
            goto := some (t.device ++ "_agent") }) ∧
    (s.task_queue = [] → s.original_user_input = "" → ∀ plan,
      task_planner plan s =
        Except.ok { state := { s with task_queue := [] }, goto := none }) := by
  refine ⟨?_, ?_, ?_⟩
  · intro t rest hq plan
    simp [task_planner, hq]
  · intro hq hu t ts
    simp [task_planner, hq, hu]
  · intro hq hu plan
    simp [task_planner, hq, hu]

/-- C7 witness: a non-empty queue resumes by dispatching its head without
consulting the plan. -/
theorem planner_three_triggers_witness :
    seTaskState.task_queue =
      [{ device := "search_engine", action := "find recipes" }] ∧
    task_planner [] seTaskState =
      Except.ok
        { state :=
            { seTaskState with
              task_queue :=
                [{ device := "search_engine", action := "find recipes" }] },
          goto := some "search_engine_agent" } :=
  ⟨rfl,
    (planner_three_triggers seTaskState).1
      { device := "search_engine", action := "find recipes" } [] rfl []⟩

/-- A state with an inbound collaboration request addressed to the audio
system. -/
def audioInState : SmartHomeState :=
  { baseState with
    collaboration_request :=
      some { requester := "search_engine", target := "audio_system",
             request := "play something" } }

/-- A state where the audio system has a pending task waiting on the search
engine. -/
def audioPendState : SmartHomeState :=
  { baseState with
    task_queue := [{ device := "audio_system", action := "play relaxing music" }]
    pending_task :=
      some { device := "audio_system", action := "play relaxing music",
             waiting_for := "search_engine" }
    responses := update_slot emptySlots "search_engine" (some "some songs") }

/-- A state whose queue head is an audio-system task. -/
def audioTaskState : SmartHomeState :=
  { baseState with
    task_queue := [{ device := "audio_system", action := "play relaxing music" }] }

/-- An oracle answering directly for the audio system. -/
def oAudioAnswer : WorkerOracle :=
  { answerCollaboration := "Now playing"
    resume := "Now playing"
    decide := { response := "Now playing", collab := none } }

/-- An oracle whose branch-3 decision asks the search engine for
recommendations. -/
def oAudioAsk : WorkerOracle :=
  { answerCollaboration := ""
    resume := ""
    decide := { response := "",
                collab := some { target := "search_engine",
                                 request := "recommend relaxing music" } } }

/-- C9: in all three branches (and both branch-3 outcomes) the audio-system
worker records its history entries under the device string `"audio system"`
(with a space), while the same activation writes `"audio_system"` into
`pending_task` and the other identity positions — so its history `device`
field is NOT the catalog identity `"audio_system"` used by queues, targets
and slot names. -/
theorem audio_system_history_device_mismatch :
    (audio_system_agent oAudioAnswer audioInState).map
        (fun c => c.state.task_history.map HistoryEntry.device) =
      some ["audio system"] ∧
    (audio_system_agent oAudioAnswer audioPendState).map
        (fun c => c.state.task_history.map HistoryEntry.device) =
      some ["audio system"] ∧
    (audio_system_agent oAudioAsk audioTaskState).map
        (fun c => c.state.task_history.map HistoryEntry.device) =
      some ["audio system"] ∧
    (audio_system_agent oAudioAsk audioTaskState).map
        (fun c => c.state.pending_task.map PendingTask.device) =
      some (some "audio_system") ∧
    (audio_system_agent oAudioAnswer audioTaskState).map
        (fun c => c.state.task_history.map HistoryEntry.device) =
      some ["audio system"] ∧
    "audio system" ≠ "audio_system" :=
  ⟨rfl, rfl, rfl, rfl, rfl, by decide⟩

/-- A turn state carrying a fresh user utterance and an empty queue. -/
def freshUtterState : SmartHomeState :=
  { baseState with original_user_input := "what should I cook tonight?" }

/-- C10 counterexample: when the planning oracle returns an empty task list,
the Plan step's unconditional read of `new_task_queue[0]` is out of bounds
and the turn fails with an uncaught IndexError instead of dispatching or
ending cleanly. -/
theorem plan_head_oob_counterexample :
    task_planner [] freshUtterState =
      Except.error "IndexError: list index out of range" := rfl

/-- C10 (amended): for an empty queue and a fresh utterance, the Plan step
reads the head of the oracle's plan unconditionally: with an empty plan the
access is out of bounds and the turn fails with an uncaught IndexError; with
any non-empty plan the head access is in bounds and the head task's worker is
dispatched. -/
theorem plan_head_guarded (s : SmartHomeState)
    (hq : s.task_queue = []) (hu : s.original_user_input ≠ "") :
    task_planner [] s = Except.error "IndexError: list index out of range" ∧
    (∀ t ts, task_planner (t :: ts) s =
      Except.ok
        { state := { s with task_queue := t :: ts, original_user_input := "" },
          goto := some (t.device ++ "_agent") }) := by
  constructor
  · simp [task_planner, hq, hu]
  · intro t ts
    simp [task_planner, hq, hu]

/-- C10 witness: the fresh-utterance state with an empty oracle plan and with
a one-task plan. -/
theorem plan_head_guarded_witness :
    (freshUtterState.task_queue = [] ∧
      freshUtterState.original_user_input ≠ "") ∧
    task_planner [] freshUtterState =
      Except.error "IndexError: list index out of range" :=
  ⟨⟨rfl, by decide⟩,
    (plan_head_guarded freshUtterState rfl (by decide)).1⟩

/-- The round-trip start state: the recipe task for the search engine at the
head of the queue, with empty history. -/
def roundTripStart : SmartHomeState :=
  { baseState with
    task_queue :=
      [{ device := "search_engine",
         action := "suggest recipes using available ingredients" }] }

/-- Oracle for the search engine's new-task activation: request collaboration
with the fridge. -/
def oSeAsk (req : String) : WorkerOracle :=
  { answerCollaboration := ""
    resume := ""
    decide := { response := "",
                collab := some { target := "fridge", request := req } } }

/-- Oracle for the fridge's inbound-collaboration activation: answer
directly. -/
def oFridgeAnswer (ans : String) : WorkerOracle :=
  { answerCollaboration := ans
    resume := ""
    decide := { response := "", collab := none } }

/-- Oracle for the search engine's resume activation: finalize the result. -/
def oSeResume (res : String) : WorkerOracle :=
  { answerCollaboration := ""
    resume := res
    decide := { response := "", collab := none } }

/-- C8: the round-trip scenario.  Starting from the recipe task with empty
history, the search engine requests collaboration with the fridge (control
moves to the fridge), the fridge answers directly (control returns to the
search engine), and the search engine resumes: the one queue head is popped,
`search_engine_result` is set, and the history holds exactly three entries in
order — a `collaboration_request` by search_engine, a `collaboration_response`
by fridge, and a `task_completion` by search_engine. -/
theorem round_trip_three_entries (req ans res : String) :
    ∃ c₁ c₂ c₃,
      search_engine_agent (oSeAsk req) roundTripStart = some c₁ ∧
      c₁.goto = some "fridge_agent" ∧
      fridge_agent (oFridgeAnswer ans) c₁.state = some c₂ ∧
      c₂.goto = some "search_engine_agent" ∧
      search_engine_agent (oSeResume res) c₂.state = some c₃ ∧
      c₃.goto = some "task_planner" ∧
      c₃.state.task_queue = [] ∧
      c₃.state.results "search_engine" = some res ∧
      c₃.state.task_history =
        [{ device := "search_engine", type := .collaboration_request,
           action_taken := "suggest recipes using available ingredients",
           result := .redirect "fridge" req },
         { device := "fridge", type := .collaboration_response,
           action_taken := req, result := .text ans },
         { device := "search_engine", type := .task_completion,
           action_taken := "suggest recipes using available ingredients",
           result := .text res }] :=
  ⟨_, _, _, rfl, rfl, rfl, rfl, rfl, rfl, rfl, rfl, rfl⟩

end SmartHome
